import Mathlib

/-!
Shallow embedding of the `db` package of Jay1570/learning-go
(`db/utils.go` and the joins variant), together with theorems checking the
natural-language specification against it.

Go values carried through `interface{}` slots (payload fields, query
arguments) are modelled by the inductive `GoValue`; a struct payload is a
list of `GoField` records carrying the exportedness flag, the `db` struct
tag and the field value, in declaration order.  The `*sql.DB` handle is
modelled by oracle functions passed in as parameters: a query oracle
returns the already-scanned rows (or an execution error), mirroring
`db.Query` + `scanRows`, and a count oracle mirrors
`db.QueryRow(...).Scan(&count)`.  A nil `*QueryOptions` pointer is
modelled as `none`.
-/

namespace LearningGo

/-- A Go value held in an `interface{}` slot.  `vNilPtr` is a nil pointer
(`field.Kind() == reflect.Ptr && field.IsNil()`), `vPtr` a non-nil pointer
to a value, and floats are carried as rationals (the builders never
inspect the numeric content, only the reflect kind). -/
inductive GoValue where
  | vNilPtr : GoValue
  | vPtr : GoValue → GoValue
  | vStr : String → GoValue
  | vInt : Int → GoValue
  | vFloat : Rat → GoValue
  | vBool : Bool → GoValue
  deriving DecidableEq, Repr

/-- One struct field of an update/insert payload, in declaration order.
`exported` models `field.CanInterface()`; `dbTag` is the raw `db:"..."`
tag (empty string when absent). -/
structure GoField where
  exported : Bool
  dbTag : String
  value : GoValue
  deriving DecidableEq, Repr

/-- Characters of a string up to (excluding) the first comma. -/
def takeUntilComma : List Char → List Char
  | [] => []
  | c :: rest => if c = ',' then [] else c :: takeUntilComma rest

/-- `strings.Split(tag, ",")[0]`: the column name is the first
comma-separated component of the `db` tag, i.e. its characters up to the
first comma. -/
def columnName (dbTag : String) : String :=
  String.mk (takeUntilComma dbTag.toList)

/-- `QueryOptions` from `db/utils.go`.  `Where` is a pre-rendered SQL
fragment, `WhereArgs` its positional arguments, and `Limit`/`Offset` are
Go `int`s. -/
structure QueryOptions where
  Where : String
  WhereArgs : List GoValue
  OrderBy : String
  Limit : Int
  Offset : Int
  deriving DecidableEq, Repr

/-- The zero `QueryOptions` value `&QueryOptions{}`. -/
def QueryOptions.empty : QueryOptions :=
  { Where := "", WhereArgs := [], OrderBy := "", Limit := 0, Offset := 0 }

/-- `buildWhereClause`: nil options or an empty `Where` yield the empty
clause and nil args; otherwise `" WHERE " + options.Where` and the args
passed through unchanged. -/
def buildWhereClause (options : Option QueryOptions) : String × List GoValue :=
  match options with
  | none => ("", [])
  | some o => if o.Where = "" then ("", []) else (" WHERE " ++ o.Where, o.WhereArgs)

/-- `buildSelectQuery`, transcribed statement by statement from the Go
source: start from `SELECT * FROM <table><whereClause>` and, when the
options pointer is non-nil, append the ORDER BY, LIMIT and OFFSET pieces
in that order, each under its own guard. -/
def buildSelectQuery (tableName : String) (options : Option QueryOptions)
    (whereClause : String) : String :=
  let query := "SELECT * FROM " ++ tableName ++ whereClause
  match options with
  | none => query
  | some o =>
    let query := if o.OrderBy ≠ "" then query ++ " ORDER BY " ++ o.OrderBy else query
    let query := if o.Limit > 0 then query ++ " LIMIT " ++ toString o.Limit else query
    let query := if o.Offset > 0 then query ++ " OFFSET " ++ toString o.Offset else query
    query

/-- The skip tests of `buildInsertData`'s loop body that are shared with
`buildSetClause`: unexported field, missing/`-` tag, empty column name,
or the reserved `id`/`createdAt` columns. -/
def fieldMapped (f : GoField) : Bool :=
  f.exported && f.dbTag ≠ "" && f.dbTag ≠ "-" && columnName f.dbTag ≠ "" &&
    columnName f.dbTag ≠ "id" && columnName f.dbTag ≠ "createdAt"

/-- `buildInsertData`: parallel (columns, placeholders, values) lists,
one entry per mapped field in declaration order. -/
def buildInsertData (payload : List GoField) : List String × List String × List GoValue :=
  match payload with
  | [] => ([], [], [])
  | f :: rest =>
    let (cols, phs, vals) := buildInsertData rest
    if fieldMapped f then
      (columnName f.dbTag :: cols, "?" :: phs, f.value :: vals)
    else
      (cols, phs, vals)

/-- The value-dependent skip tests of `buildSetClause`:
`field.Kind() == reflect.Ptr && field.IsNil()` and
`field.Kind() == reflect.String && field.String() == ""`. -/
def setClauseSkipsValue (v : GoValue) : Bool :=
  match v with
  | .vNilPtr => true
  | .vStr s => s = ""
  | _ => false

/-- The loop of `buildSetClause`: the parallel (`<col> = ?` parts, values)
lists, one entry per mapped field whose value is not skipped, in
declaration order. -/
def buildSetClauseParts (payload : List GoField) : List String × List GoValue :=
  match payload with
  | [] => ([], [])
  | f :: rest =>
    let (parts, vals) := buildSetClauseParts rest
    if fieldMapped f && !setClauseSkipsValue f.value then
      ((columnName f.dbTag ++ " = ?") :: parts, f.value :: vals)
    else
      (parts, vals)

/-- `buildSetClause`: the set parts joined with `", "`, plus the values. -/
def buildSetClause (payload : List GoField) : String × List GoValue :=
  let (parts, vals) := buildSetClauseParts payload
  (String.intercalate ", " parts, vals)

/-- One join clause (`JoinClause`): the join kind rendered as its SQL
text (`INNER JOIN`, `LEFT JOIN`, ...), the joined table, and the raw ON
condition. -/
structure JoinClause where
  joinType : String
  Table : String
  Condition : String
  deriving DecidableEq, Repr

/-- `QueryOptionsWithJoins`. -/
structure QueryOptionsWithJoins where
  Joins : List JoinClause
  Where : String
  WhereArgs : List GoValue
  OrderBy : String
  Limit : Int
  Offset : Int
  Select : String
  deriving DecidableEq, Repr

/-- The zero `QueryOptionsWithJoins` value `&QueryOptionsWithJoins{}`. -/
def QueryOptionsWithJoins.empty : QueryOptionsWithJoins :=
  { Joins := [], Where := "", WhereArgs := [], OrderBy := "", Limit := 0,
    Offset := 0, Select := "" }

/-- The ` <JoinType> <table> ON <condition>` fragments appended by the
join loop, one per clause in order. -/
def joinFragments (joins : List JoinClause) : String :=
  match joins with
  | [] => ""
  | j :: rest => " " ++ j.joinType ++ " " ++ j.Table ++ " ON " ++ j.Condition ++
      joinFragments rest

/-- `buildJoinQuery`, transcribed from the Go source: SELECT clause
(custom when non-empty), base table, the join loop, then the guarded
WHERE, ORDER BY, LIMIT and OFFSET appends, each checking the options
pointer for nil. -/
def buildJoinQuery (tableName : String) (options : Option QueryOptionsWithJoins) : String :=
  let selectClause :=
    match options with
    | some o => if o.Select ≠ "" then o.Select else "*"
    | none => "*"
  let query := "SELECT " ++ selectClause ++ " FROM " ++ tableName
  let query :=
    match options with
    | some o => if o.Joins.length > 0 then query ++ joinFragments o.Joins else query
    | none => query
  let query :=
    match options with
    | some o => if o.Where ≠ "" then query ++ " WHERE " ++ o.Where else query
    | none => query
  let query :=
    match options with
    | some o => if o.OrderBy ≠ "" then query ++ " ORDER BY " ++ o.OrderBy else query
    | none => query
  let query :=
    match options with
    | some o => if o.Limit > 0 then query ++ " LIMIT " ++ toString o.Limit else query
    | none => query
  match options with
  | some o => if o.Offset > 0 then query ++ " OFFSET " ++ toString o.Offset else query
  | none => query

/-- `buildCountQueryWithJoins`: `SELECT COUNT(*)`, the join loop, and
the guarded WHERE; no ORDER BY/LIMIT/OFFSET. -/
def buildCountQueryWithJoins (tableName : String) (options : Option QueryOptionsWithJoins) : String :=
  let query := "SELECT COUNT(*) FROM " ++ tableName
  let query :=
    match options with
    | some o => if o.Joins.length > 0 then query ++ joinFragments o.Joins else query
    | none => query
  match options with
  | some o => if o.Where ≠ "" then query ++ " WHERE " ++ o.Where else query
  | none => query

/-! ## The CRUD façade

The backing store is abstracted as oracle functions: `qdb` models
`db.Query` followed by `scanRows` (it returns the scanned rows of type
`T`, or an execution error), and `cdb` models
`db.QueryRow(countQuery).Scan(&count)`.  Errors mirror the Go error
taxonomy: `sql.ErrNoRows` is the distinguished `noRows` constructor,
and every wrapped execution error carries its `fmt.Errorf` context
string. -/

/-- An execution error reported by the backing store. -/
structure ExecErr where
  msg : String
  deriving DecidableEq, Repr

/-- Errors returned by the CRUD façade: the distinguished `sql.ErrNoRows`
versus an execution error wrapped with operation context. -/
inductive DbErr where
  | noRows : DbErr
  | wrapped : String → ExecErr → DbErr
  deriving DecidableEq, Repr

/-- `FindAll`: one `buildWhereClause` call, one `buildSelectQuery`, one
query round trip; query errors are wrapped with
"failed to query records". -/
def FindAll {T : Type} (qdb : String → List GoValue → Except ExecErr (List T))
    (tableName : String) (options : Option QueryOptions) : Except DbErr (List T) :=
  let wa := buildWhereClause options
  let query := buildSelectQuery tableName options wa.1
  match qdb query wa.2 with
  | .error e => .error (.wrapped "failed to query records" e)
  | .ok rows => .ok rows

/-- The options value `FindOne` hands to `FindAll`, which is also the
state of the caller's options record after the call: a fresh empty value
when the pointer was nil, and in every case `Limit` overwritten with 1. -/
def findOneEffectiveOptions (options : Option QueryOptions) : QueryOptions :=
  let o := match options with
    | none => QueryOptions.empty
    | some o => o
  { o with Limit := 1 }

/-- `FindOne`: substitute empty options when nil, force `Limit = 1`,
delegate to `FindAll`; empty result becomes `sql.ErrNoRows`, otherwise a
pointer to the first row.  The second component is the final contents of
the options record (`options.Limit = 1` mutates the caller's value). -/
def FindOne {T : Type} (qdb : String → List GoValue → Except ExecErr (List T))
    (tableName : String) (options : Option QueryOptions) :
    Except DbErr T × QueryOptions :=
  let o := findOneEffectiveOptions options
  let result :=
    match FindAll qdb tableName (some o) with
    | .error e => .error e
    | .ok [] => .error .noRows
    | .ok (r :: _) => .ok r
  (result, o)

/-- `CountResult`. -/
structure CountResult (T : Type) where
  Data : List T
  Count : Int
  deriving DecidableEq, Repr

/-- `FindAllAndCount`: one `buildWhereClause` call shared by the COUNT
and SELECT round trips; `Count` is scanned from the COUNT query, `Data`
from the SELECT. -/
def FindAllAndCount {T : Type} (cdb : String → List GoValue → Except ExecErr Int)
    (qdb : String → List GoValue → Except ExecErr (List T))
    (tableName : String) (options : Option QueryOptions) :
    Except DbErr (CountResult T) :=
  let (whereClause, args) := buildWhereClause options
  let countQuery := "SELECT COUNT(*) FROM " ++ tableName ++ whereClause
  match cdb countQuery args with
  | .error e => .error (.wrapped "failed to count records" e)
  | .ok count =>
    let selectQuery := buildSelectQuery tableName options whereClause
    match qdb selectQuery args with
    | .error e => .error (.wrapped "failed to query records" e)
    | .ok rows => .ok { Data := rows, Count := count }

/-- `UpdateData`: set clause from the payload, where clause from the
options, arguments bound as `append(setArgs, whereArgs...)`, statement
`UPDATE <table> SET <set><where> RETURNING *`. -/
def UpdateData {T : Type} (qdb : String → List GoValue → Except ExecErr (List T))
    (tableName : String) (payload : List GoField) (options : Option QueryOptions) :
    Except DbErr (List T) :=
  let (setClause, setArgs) := buildSetClause payload
  let (whereClause, whereArgs) := buildWhereClause options
  let args := setArgs ++ whereArgs
  let query := "UPDATE " ++ tableName ++ " SET " ++ setClause ++ whereClause ++
    " RETURNING *"
  match qdb query args with
  | .error e => .error (.wrapped "failed to update records" e)
  | .ok rows => .ok rows

/-- The single-row INSERT statement built inside `InsertOne` and the
`BulkInsert` loop. -/
def insertQuery (tableName : String) (payload : List GoField) : String :=
  let (cols, phs, _) := buildInsertData payload
  "INSERT INTO " ++ tableName ++ " (" ++ String.intercalate ", " cols ++
    ") VALUES (" ++ String.intercalate ", " phs ++ ")"

/-- Observable interaction of one `BulkInsert` call with the backing
store: whether `db.Begin()` was called, the statements handed to
`tx.Exec` with their arguments, in order, and whether `tx.Commit()`
succeeded. -/
structure TxTrace where
  beganTx : Bool
  statements : List (String × List GoValue)
  committed : Bool
  deriving DecidableEq, Repr

/-- The `BulkInsert` loop over the payloads: runs each row's INSERT
through the `tx.Exec` oracle, stopping at the first failure. -/
def bulkInsertLoop (texec : String → List GoValue → Except ExecErr Unit)
    (tableName : String) (payloads : List (List GoField)) :
    Option ExecErr × List (String × List GoValue) :=
  match payloads with
  | [] => (none, [])
  | p :: rest =>
    let q := insertQuery tableName p
    let vals := (buildInsertData p).2.2
    match texec q vals with
    | .error e => (some e, [(q, vals)])
    | .ok _ =>
      let (err, stmts) := bulkInsertLoop texec tableName rest
      (err, (q, vals) :: stmts)

/-- `BulkInsert`: empty input short-circuits to `(true, nil)` before any
transaction is begun; otherwise begin, run the loop, commit; any failure
wraps its context and yields `false`.  The Go function's result is the
`Except DbErr Bool`; the `TxTrace` records the interaction with the
store. -/
def BulkInsert (beginErr commitErr : Option ExecErr)
    (texec : String → List GoValue → Except ExecErr Unit)
    (tableName : String) (payloads : List (List GoField)) :
    Except DbErr Bool × TxTrace :=
  if payloads.length = 0 then
    (.ok true, { beganTx := false, statements := [], committed := false })
  else
    match beginErr with
    | some e => (.error (.wrapped "failed to begin transaction" e),
        { beganTx := true, statements := [], committed := false })
    | none =>
      let (err, stmts) := bulkInsertLoop texec tableName payloads
      match err with
      | some e => (.error (.wrapped "failed to insert record" e),
          { beganTx := true, statements := stmts, committed := false })
      | none =>
        match commitErr with
        | some e => (.error (.wrapped "failed to commit transaction" e),
            { beganTx := true, statements := stmts, committed := false })
        | none => (.ok true,
            { beganTx := true, statements := stmts, committed := true })

/-- `FindAllWithJoins`: query from `buildJoinQuery`, args taken from the
options (empty when the pointer is nil); query errors wrapped. -/
def FindAllWithJoins {T : Type} (qdb : String → List GoValue → Except ExecErr (List T))
    (tableName : String) (options : Option QueryOptionsWithJoins) : Except DbErr (List T) :=
  let query := buildJoinQuery tableName options
  let args := match options with
    | some o => o.WhereArgs
    | none => []
  match qdb query args with
  | .error e => .error (.wrapped "failed to query records with joins" e)
  | .ok rows => .ok rows

/-- The options value `FindOneWithJoins` hands to `FindAllWithJoins`:
fresh empty value when nil, `Limit` overwritten with 1. -/
def findOneWithJoinsEffectiveOptions (options : Option QueryOptionsWithJoins) :
    QueryOptionsWithJoins :=
  let o := match options with
    | none => QueryOptionsWithJoins.empty
    | some o => o
  { o with Limit := 1 }

/-- `FindOneWithJoins`, mirroring `FindOne` for the joins variant. -/
def FindOneWithJoins {T : Type} (qdb : String → List GoValue → Except ExecErr (List T))
    (tableName : String) (options : Option QueryOptionsWithJoins) :
    Except DbErr T × QueryOptionsWithJoins :=
  let o := findOneWithJoinsEffectiveOptions options
  let result :=
    match FindAllWithJoins qdb tableName (some o) with
    | .error e => .error e
    | .ok [] => .error .noRows
    | .ok (r :: _) => .ok r
  (result, o)

/-! ## Spec-worded definitions

These follow the specification's sentences, to be compared with the
definitions transcribed from the source. -/

/-- Modelled from the spec sentence for the select builder: the base
query followed, in this fixed order, by an ORDER BY clause when `OrderBy`
is non-empty, a LIMIT clause when `Limit > 0`, and an OFFSET clause when
`Offset > 0`; zero renders no clause. -/
def selectQuerySpec (tableName : String) (options : Option QueryOptions)
    (whereClause : String) : String :=
  "SELECT * FROM " ++ tableName ++ whereClause ++
    (match options with
     | none => ""
     | some o =>
       (if o.OrderBy ≠ "" then " ORDER BY " ++ o.OrderBy else "") ++
         (if o.Limit > 0 then " LIMIT " ++ toString o.Limit else "") ++
         (if o.Offset > 0 then " OFFSET " ++ toString o.Offset else ""))

/-- Modelled from the spec sentence for the join builder: SELECT clause
(custom when non-empty, else `*`), base table, one join fragment per
clause in supplied order, then WHERE, ORDER BY, LIMIT, OFFSET, each only
when set. -/
def joinQuerySpec (tableName : String) (options : Option QueryOptionsWithJoins) : String :=
  match options with
  | none => "SELECT * FROM " ++ tableName
  | some o =>
    "SELECT " ++ (if o.Select ≠ "" then o.Select else "*") ++ " FROM " ++ tableName ++
      joinFragments o.Joins ++
      (if o.Where ≠ "" then " WHERE " ++ o.Where else "") ++
      (if o.OrderBy ≠ "" then " ORDER BY " ++ o.OrderBy else "") ++
      (if o.Limit > 0 then " LIMIT " ++ toString o.Limit else "") ++
      (if o.Offset > 0 then " OFFSET " ++ toString o.Offset else "")

/-- Modelled from the spec's skip rule for the SET clause: a mapped,
non-excluded field contributes its `<col> = ?` part and its value exactly
when it is neither a nil pointer nor an empty string. -/
def specSetEntry (f : GoField) : Option (String × GoValue) :=
  if fieldMapped f = true ∧ f.value ≠ GoValue.vNilPtr ∧ f.value ≠ GoValue.vStr "" then
    some (columnName f.dbTag ++ " = ?", f.value)
  else none

/-- Does the first character list lead the second one, character by
character? -/
def leadsWith : List Char → List Char → Bool
  | [], _ => true
  | _ :: _, [] => false
  | a :: as, b :: bs => a == b && leadsWith as bs

/-- Does the needle occur contiguously anywhere in the haystack? -/
def containsChars (needle : List Char) : List Char → Bool
  | [] => leadsWith needle []
  | c :: rest => leadsWith needle (c :: rest) || containsChars needle rest

/-! ## Helper lemmas -/

theorem setClauseSkips_iff (v : GoValue) :
    setClauseSkipsValue v = true ↔ (v = GoValue.vNilPtr ∨ v = GoValue.vStr "") := by
  cases v <;> simp [setClauseSkipsValue]

theorem buildSetClauseParts_eq (payload : List GoField) :
    buildSetClauseParts payload =
      ((payload.filterMap specSetEntry).map Prod.fst,
       (payload.filterMap specSetEntry).map Prod.snd) := by
  induction payload with
  | nil => rfl
  | cons f rest ih =>
    by_cases hm : fieldMapped f = true
    · by_cases hs : setClauseSkipsValue f.value = true
      · have h1 : ¬(¬f.value = GoValue.vNilPtr ∧ ¬f.value = GoValue.vStr "") := by
          rcases (setClauseSkips_iff f.value).mp hs with h | h <;> simp [h]
        simp [buildSetClauseParts, specSetEntry, List.filterMap_cons, hm, hs, h1, ih]
      · have h2 : f.value ≠ GoValue.vNilPtr ∧ f.value ≠ GoValue.vStr "" := by
          constructor <;> intro h <;> exact hs ((setClauseSkips_iff f.value).mpr (by simp [h]))
        simp [buildSetClauseParts, specSetEntry, List.filterMap_cons, hm, hs, h2, ih]
    · have h1 : ¬(fieldMapped f = true ∧ f.value ≠ GoValue.vNilPtr ∧
          f.value ≠ GoValue.vStr "") := by simp [hm]
      simp [buildSetClauseParts, specSetEntry, List.filterMap_cons, hm, h1, ih]

theorem buildSetClauseParts_length (payload : List GoField) :
    (buildSetClauseParts payload).1.length = (buildSetClauseParts payload).2.length := by
  induction payload with
  | nil => rfl
  | cons f rest ih =>
    by_cases h : (fieldMapped f && !setClauseSkipsValue f.value) = true <;>
      simp [buildSetClauseParts, h, ih]

theorem string_append_assoc (a b c : String) : a ++ b ++ c = a ++ (b ++ c) :=
  String.ext (by simp [String.data_append])

theorem joinGuard_eq (q : String) (l : List JoinClause) :
    (if l.length > 0 then q ++ joinFragments l else q) = q ++ joinFragments l := by
  cases l with
  | nil => simp [joinFragments, String.append_empty]
  | cons j rest => simp

/-! ## Claim theorems -/

/-- C1: for every update payload, `buildSetClause` contributes an entry for a
mapped, non-excluded field exactly when that field is neither a nil pointer
nor an empty string (the `specSetEntry` filter), and non-string zero values
(integer 0, float 0.0, boolean false) are always included in the SET parts
and the argument list. -/
theorem buildSetClause_skip_exactly (payload : List GoField) :
    buildSetClauseParts payload =
      ((payload.filterMap specSetEntry).map Prod.fst,
       (payload.filterMap specSetEntry).map Prod.snd) ∧
    ∀ f, f ∈ payload → fieldMapped f = true →
      (f.value = GoValue.vInt 0 ∨ f.value = GoValue.vFloat 0 ∨
        f.value = GoValue.vBool false) →
      (columnName f.dbTag ++ " = ?") ∈ (buildSetClauseParts payload).1 ∧
      f.value ∈ (buildSetClauseParts payload).2 := by
  refine ⟨buildSetClauseParts_eq payload, ?_⟩
  intro f hf hm hz
  have hne : f.value ≠ GoValue.vNilPtr ∧ f.value ≠ GoValue.vStr "" := by
    rcases hz with h | h | h <;> simp [h]
  have hsome : specSetEntry f = some (columnName f.dbTag ++ " = ?", f.value) := by
    simp [specSetEntry, hm, hne.1, hne.2]
  have hmem : (columnName f.dbTag ++ " = ?", f.value) ∈ payload.filterMap specSetEntry :=
    List.mem_filterMap.mpr ⟨f, hf, hsome⟩
  rw [buildSetClauseParts_eq]
  exact ⟨List.mem_map.mpr ⟨_, hmem, rfl⟩, List.mem_map.mpr ⟨_, hmem, rfl⟩⟩

/-- Witness for C1: a payload holding an integer zero is included in the SET
parts and the argument list. -/
theorem buildSetClause_skip_exactly_witness :
    (columnName "stock" ++ " = ?") ∈
      (buildSetClauseParts [⟨true, "stock", GoValue.vInt 0⟩]).1 ∧
    GoValue.vInt 0 ∈ (buildSetClauseParts [⟨true, "stock", GoValue.vInt 0⟩]).2 :=
  (buildSetClause_skip_exactly [⟨true, "stock", GoValue.vInt 0⟩]).2
    ⟨true, "stock", GoValue.vInt 0⟩ (by simp) (by decide) (Or.inl rfl)

/-- C4: `buildSelectQuery` renders `SELECT * FROM <table><whereClause>`
followed, in this fixed order, by ORDER BY when non-empty, LIMIT when
positive, OFFSET when positive; zero renders no clause. -/
theorem buildSelectQuery_fixed_order (tableName : String) (options : Option QueryOptions)
    (whereClause : String) :
    buildSelectQuery tableName options whereClause =
      selectQuerySpec tableName options whereClause := by
  cases options with
  | none => simp [buildSelectQuery, selectQuerySpec, String.append_empty]
  | some o =>
    simp only [buildSelectQuery, selectQuerySpec]
    by_cases h1 : o.OrderBy = "" <;> by_cases h2 : o.Limit > 0 <;>
      by_cases h3 : o.Offset > 0 <;>
        simp [h1, h2, h3, string_append_assoc, String.append_empty, String.empty_append]

/-- C5: `buildJoinQuery` renders, in this fixed order, the SELECT clause
(custom when non-empty, else `*`), the base table, one
`<JoinType> <table> ON <condition>` fragment per join clause in supplied
order, then WHERE, ORDER BY, LIMIT, OFFSET, each only when set. -/
theorem buildJoinQuery_fixed_order (tableName : String)
    (options : Option QueryOptionsWithJoins) :
    buildJoinQuery tableName options = joinQuerySpec tableName options := by
  cases options with
  | none => rfl
  | some o =>
    simp only [buildJoinQuery, joinQuerySpec, joinGuard_eq]
    by_cases h1 : o.Select = "" <;> by_cases h2 : o.Where = "" <;>
      by_cases h3 : o.OrderBy = "" <;> by_cases h4 : o.Limit > 0 <;>
        by_cases h5 : o.Offset > 0 <;>
          simp [h1, h2, h3, h4, h5, string_append_assoc, String.append_empty,
            String.empty_append]

/-- C7: `FindOne` on a non-nil options value overwrites its `Limit` field
with 1 — visible to the caller through the returned options state — and
leaves `Where`, `WhereArgs`, `OrderBy` and `Offset` unchanged. -/
theorem findOne_mutates_only_limit {T : Type}
    (qdb : String → List GoValue → Except ExecErr (List T))
    (tableName : String) (o : QueryOptions) :
    (FindOne qdb tableName (some o)).2.Limit = 1 ∧
    (FindOne qdb tableName (some o)).2.Where = o.Where ∧
    (FindOne qdb tableName (some o)).2.WhereArgs = o.WhereArgs ∧
    (FindOne qdb tableName (some o)).2.OrderBy = o.OrderBy ∧
    (FindOne qdb tableName (some o)).2.Offset = o.Offset :=
  ⟨rfl, rfl, rfl, rfl, rfl⟩

/-- C8: `BulkInsert` on an empty payload list returns `(true, nil)` without
beginning a transaction or issuing any statement. -/
theorem bulkInsert_empty_noop (beginErr commitErr : Option ExecErr)
    (texec : String → List GoValue → Except ExecErr Unit) (tableName : String) :
    BulkInsert beginErr commitErr texec tableName [] =
      (Except.ok true, { beganTx := false, statements := [], committed := false }) :=
  rfl

/-- C10: every builder and find operation is total on a nil options pointer:
`buildWhereClause` returns the empty clause and nil args, `buildSelectQuery`
and `buildJoinQuery` render the unconstrained base query, and
`FindOne`/`FindOneWithJoins` substitute a fresh empty options value (with
`Limit` then forced to 1). -/
theorem nil_options_total (tableName whereClause : String) :
    buildWhereClause none = ("", []) ∧
    buildSelectQuery tableName none whereClause =
      "SELECT * FROM " ++ tableName ++ whereClause ∧
    buildJoinQuery tableName none = "SELECT * FROM " ++ tableName ∧
    findOneEffectiveOptions none = { QueryOptions.empty with Limit := 1 } ∧
    findOneWithJoinsEffectiveOptions none =
      { QueryOptionsWithJoins.empty with Limit := 1 } :=
  ⟨rfl, rfl, rfl, rfl, rfl⟩

theorem FindAll_error_wrapped {T : Type}
    (qdb : String → List GoValue → Except ExecErr (List T))
    (tableName : String) (options : Option QueryOptions) (e : DbErr)
    (h : FindAll qdb tableName options = Except.error e) :
    ∃ ee, e = DbErr.wrapped "failed to query records" ee := by
  unfold FindAll at h
  cases hq : qdb (buildSelectQuery tableName options (buildWhereClause options).1)
      (buildWhereClause options).2 with
  | error ee =>
    simp [hq] at h
    exact ⟨ee, h.symm⟩
  | ok rows =>
    simp [hq] at h

/-- C3: `FindOne` delegates to `FindAll` with `Limit` forced to 1; a
successful empty result becomes the distinguished `sql.ErrNoRows`, a
non-empty result yields the first row, and a `FindAll` error is propagated
unchanged and is never the no-rows error (which is distinct from every
wrapped execution error). -/
theorem findOne_noRows_distinguished {T : Type}
    (qdb : String → List GoValue → Except ExecErr (List T))
    (tableName : String) (options : Option QueryOptions) :
    (findOneEffectiveOptions options).Limit = 1 ∧
    (FindAll qdb tableName (some (findOneEffectiveOptions options)) =
        Except.ok ([] : List T) →
      (FindOne qdb tableName options).1 = Except.error DbErr.noRows) ∧
    (∀ r rs, FindAll qdb tableName (some (findOneEffectiveOptions options)) =
        Except.ok (r :: rs) →
      (FindOne qdb tableName options).1 = Except.ok r) ∧
    (∀ e, FindAll qdb tableName (some (findOneEffectiveOptions options)) =
        Except.error e →
      (FindOne qdb tableName options).1 = Except.error e ∧ e ≠ DbErr.noRows) ∧
    (∀ ctx ee, DbErr.noRows ≠ DbErr.wrapped ctx ee) := by
  refine ⟨rfl, ?_, ?_, ?_, ?_⟩
  · intro h
    simp [FindOne, h]
  · intro r rs h
    simp [FindOne, h]
  · intro e h
    refine ⟨by simp [FindOne, h], ?_⟩
    obtain ⟨ee, he⟩ := FindAll_error_wrapped qdb tableName _ e h
    simp [he]
  · intro ctx ee
    exact fun h => DbErr.noConfusion h

/-- Witness for C3: a backend returning no rows makes `FindOne` report
`sql.ErrNoRows`. -/
theorem findOne_noRows_distinguished_witness :
    (FindOne (fun _ _ => Except.ok ([] : List Nat)) "users" none).1 =
      Except.error DbErr.noRows :=
  (findOne_noRows_distinguished (fun _ _ => Except.ok ([] : List Nat)) "users" none).2.1 rfl

/-- C6: `FindAllAndCount` feeds the COUNT and SELECT round trips the where
clause and argument list of one `buildWhereClause` call, and its `Count`
field is the value scanned from the COUNT query while `Data` is the SELECT
result — independent of `Data`'s length. -/
theorem findAllAndCount_shared_where {T : Type}
    (cdb : String → List GoValue → Except ExecErr Int)
    (qdb : String → List GoValue → Except ExecErr (List T))
    (tableName : String) (options : Option QueryOptions) (n : Int) (rows : List T)
    (hc : cdb ("SELECT COUNT(*) FROM " ++ tableName ++ (buildWhereClause options).1)
      (buildWhereClause options).2 = Except.ok n)
    (hq : qdb (buildSelectQuery tableName options (buildWhereClause options).1)
      (buildWhereClause options).2 = Except.ok rows) :
    FindAllAndCount cdb qdb tableName options =
      Except.ok { Data := rows, Count := n } := by
  unfold FindAllAndCount
  simp [hc, hq]

/-- Witness for C6: `Count` comes from the COUNT query (5) even though the
returned page holds 2 rows. -/
theorem findAllAndCount_shared_where_witness :
    FindAllAndCount (fun _ _ => Except.ok 5) (fun _ _ => Except.ok [(1 : Nat), 2])
        "users" none = Except.ok { Data := [1, 2], Count := 5 } ∧
      (5 : Int) ≠ 2 :=
  ⟨findAllAndCount_shared_where (fun _ _ => Except.ok 5)
    (fun _ _ => Except.ok [(1 : Nat), 2]) "users" none 5 [1, 2] rfl rfl, by decide⟩

/-- C9: `UpdateData` binds its arguments as the SET-clause argument list
followed by the WHERE argument list on the statement
`UPDATE <table> SET <set><where> RETURNING *`, and the SET clause carries
exactly one `?` part per SET argument, in the same order. -/
theorem updateData_args_order {T : Type}
    (qdb : String → List GoValue → Except ExecErr (List T))
    (tableName : String) (payload : List GoField) (options : Option QueryOptions)
    (rows : List T)
    (hq : qdb ("UPDATE " ++ tableName ++ " SET " ++ (buildSetClause payload).1 ++
        (buildWhereClause options).1 ++ " RETURNING *")
      ((buildSetClause payload).2 ++ (buildWhereClause options).2) = Except.ok rows) :
    UpdateData qdb tableName payload options = Except.ok rows ∧
    (buildSetClauseParts payload).1.length = (buildSetClauseParts payload).2.length := by
  refine ⟨?_, buildSetClauseParts_length payload⟩
  unfold UpdateData
  simp [hq]

/-- Witness for C9: a concrete update with one SET argument and one WHERE
argument. -/
theorem updateData_args_order_witness :
    UpdateData (fun _ _ => Except.ok [(0 : Nat)]) "users"
        [⟨true, "name", GoValue.vStr "x"⟩]
        (some { Where := "id = ?", WhereArgs := [GoValue.vInt 7], OrderBy := "",
                Limit := 0, Offset := 0 }) = Except.ok [0] ∧
    (buildSetClauseParts [⟨true, "name", GoValue.vStr "x"⟩]).1.length =
      (buildSetClauseParts [⟨true, "name", GoValue.vStr "x"⟩]).2.length :=
  updateData_args_order (fun _ _ => Except.ok [(0 : Nat)]) "users"
    [⟨true, "name", GoValue.vStr "x"⟩]
    (some { Where := "id = ?", WhereArgs := [GoValue.vInt 7], OrderBy := "",
            Limit := 0, Offset := 0 }) [0] rfl

/-- Counterexample to C2: with an always-succeeding backend, `BulkInsert`
on one payload issues exactly the plain statement
`INSERT INTO users (name) VALUES (?)` — which does not contain
`RETURNING` — and returns the bare boolean `true`, not a sequence of
returned row representations. -/
theorem bulkInsert_no_returning_counterexample :
    (BulkInsert none none (fun _ _ => Except.ok ()) "users"
        [[⟨true, "name", GoValue.vStr "x"⟩]]).2.statements =
      [("INSERT INTO users (name) VALUES (?)", [GoValue.vStr "x"])] ∧
    containsChars "RETURNING".toList "INSERT INTO users (name) VALUES (?)".toList = false ∧
    (BulkInsert none none (fun _ _ => Except.ok ()) "users"
        [[⟨true, "name", GoValue.vStr "x"⟩]]).1 = Except.ok true := by
  refine ⟨rfl, by decide, rfl⟩

/-- C2 (amended): for every non-empty payload list, when the transaction
begins, every row insert succeeds and the commit succeeds, `BulkInsert`
issues one plain `INSERT INTO <table> (<cols>) VALUES (<placeholders>)`
statement per payload in order (no RETURNING clause is appended) inside a
single committed transaction, and returns the boolean `true` rather than
accumulating returned rows. -/
theorem bulkInsert_amended_plain_inserts
    (texec : String → List GoValue → Except ExecErr Unit)
    (tableName : String) (payloads : List (List GoField))
    (hne : payloads ≠ [])
    (hok : ∀ q a, texec q a = Except.ok ()) :
    BulkInsert none none texec tableName payloads =
      (Except.ok true,
       { beganTx := true,
         statements := payloads.map
           (fun p => (insertQuery tableName p, (buildInsertData p).2.2)),
         committed := true }) := by
  have hloop : ∀ ps, bulkInsertLoop texec tableName ps =
      (none, ps.map (fun p => (insertQuery tableName p, (buildInsertData p).2.2))) := by
    intro ps
    induction ps with
    | nil => rfl
    | cons p rest ih => simp [bulkInsertLoop, hok, ih]
  have hlen : ¬payloads.length = 0 := by
    simpa [List.length_eq_zero] using hne
  unfold BulkInsert
  simp [hlen, hloop]

/-- Witness for the amended C2, at one concrete payload. -/
theorem bulkInsert_amended_plain_inserts_witness :
    BulkInsert none none (fun _ _ => Except.ok ()) "users"
        [[⟨true, "name", GoValue.vStr "x"⟩]] =
      (Except.ok true,
       { beganTx := true,
         statements := [("INSERT INTO users (name) VALUES (?)", [GoValue.vStr "x"])],
         committed := true }) :=
  (bulkInsert_amended_plain_inserts (fun _ _ => Except.ok ()) "users"
    [[⟨true, "name", GoValue.vStr "x"⟩]] (by simp) (fun _ _ => rfl)).trans rfl

end LearningGo
